import Mathlib

/-!
Verification of the document merge pipeline of MANEA-PDF
(`mergeFilesToPdf` and `embedHtmlAsImage` in the pdf service).

The pipeline is a sequential loop over input files, dispatching on the
declared media type with a filename-extension fallback for Office
formats.  External library calls (pdf-lib embed/load, mammoth, XLSX,
html2canvas) are modelled as oracles attached to each input file (for
calls whose outcome depends on the file's bytes) or to an environment
(for HTML rasterization, whose outcome depends on the HTML string).
Page dimensions come from the library's default page size and are kept
abstract in the environment.  Dimensions are rationals.
-/

namespace ManeaPdf

/-- Model of JavaScript `String.prototype.startsWith`, executable on the
character list so concrete dispatch decisions evaluate. -/
def strStartsWith (s p : String) : Bool := p.data.isPrefixOf s.data

/-- Model of JavaScript `String.prototype.endsWith`. -/
def strEndsWith (s p : String) : Bool := p.data.isSuffixOf s.data

/-- Model of JavaScript `String.prototype.toLowerCase`. -/
def strToLower (s : String) : String := String.mk (s.data.map Char.toLower)

/-- Outcome of `embedJpg`/`embedPng` on a file's bytes: a decoded image
with intrinsic width and height, or a thrown decode error. -/
inductive ImgDecode where
  | ok (w h : ℚ) : ImgDecode
  | fail : ImgDecode
deriving DecidableEq, Repr

/-- Outcome of `PDFDocument.load` on a file's bytes: a parsed donor
document with a page count, or a thrown parse error. -/
inductive PdfParse where
  | ok (pages : ℕ) : PdfParse
  | fail : PdfParse
deriving DecidableEq, Repr

/-- Outcome of a document-to-HTML conversion (`mammoth.convertToHtml`,
or `XLSX.read` followed by `sheet_to_html` on the first sheet): an HTML
string, or a thrown conversion error. -/
inductive ConvertHtml where
  | ok (html : String) : ConvertHtml
  | fail : ConvertHtml
deriving DecidableEq, Repr

/-- Outcome of rasterizing rendered HTML (`html2canvas` plus the JPEG
re-encode and `embedJpg` of the canvas): a bitmap with width and
height, or a thrown rendering error. -/
inductive Raster where
  | ok (w h : ℚ) : Raster
  | fail : Raster
deriving DecidableEq, Repr

/-- An input file: the name and declared media type the dispatch reads,
plus oracles for what each library call does on this file's bytes. -/
structure InputFile where
  name : String
  type : String
  decode : ImgDecode
  pdfParse : PdfParse
  wordConvert : ConvertHtml
  xlsxConvert : ConvertHtml
deriving DecidableEq, Repr

/-- Ambient environment: the default page size used by `addPage()` and
the rasterization oracle for `embedHtmlAsImage`. -/
structure Env where
  pageW : ℚ
  pageH : ℚ
  raster : String → Raster

/-- A page of the output document, identified by what was drawn on it:
an embedded bitmap with its intrinsic size and the drawn rectangle, a
text notice (placeholder pages), or a page copied from a donor PDF. -/
inductive Page where
  | imagePage (iw ih x y w h : ℚ) : Page
  | textPage (text : String) (x y : ℚ) (size : ℚ) : Page
  | copiedPage (donor : String) (idx : ℕ) : Page
deriving DecidableEq, Repr

/-- The scaled-to-fit, centered placement rectangle used both by the
image branch of `mergeFilesToPdf` and by `embedHtmlAsImage`:
`scale = min(pageW/iw, pageH/ih)`, drawn size `(iw*scale, ih*scale)`,
position `x = (pageW - iw*scale)/2`, `y = (pageH - ih*scale)/2`. -/
def fitRect (pageW pageH iw ih : ℚ) : ℚ × ℚ × ℚ × ℚ :=
  let scale := min (pageW / iw) (pageH / ih)
  ((pageW - iw * scale) / 2, (pageH - ih * scale) / 2, iw * scale, ih * scale)

/-- Build the page drawn by the shared scale-to-fit-and-center code. -/
def fitPage (env : Env) (iw ih : ℚ) : Page :=
  let r := fitRect env.pageW env.pageH iw ih
  Page.imagePage iw ih r.1 r.2.1 r.2.2.1 r.2.2.2

/-- A placeholder page: `addPage()` followed by a `drawText` of the
notice at x = 50, y = half the page height, font size 24. -/
def placeholderPage (env : Env) (msg : String) : Page :=
  Page.textPage msg 50 (env.pageH / 2) 24

/-- DOM operations performed by `embedHtmlAsImage` on the rendering
container, in program order. -/
inductive DomEvent where
  | createContainer
  | styleOffscreen
  | appendToBody
  | render
  | removeFromBody
deriving DecidableEq, Repr

/-- Model of `embedHtmlAsImage htmlContent pdfDoc`: creates a container, styles
it off-screen (`position: absolute; left: -9999px`), appends it to
`document.body`, then inside a `try` renders it with html2canvas and
embeds the JPEG on a new page scaled to fit and centered; the `catch`
adds a page with the fixed notice `Failed to render Office document`;
the `finally` removes the container from `document.body`.  Returns the
pages added (always exactly one) and the DOM event trace. -/
def embedHtmlAsImage (env : Env) (htmlContent : String) : List Page × List DomEvent :=
  let setup := [DomEvent.createContainer, DomEvent.styleOffscreen, DomEvent.appendToBody]
  let tryBlock : List DomEvent × Except Unit Page :=
    match env.raster htmlContent with
    | Raster.ok w h => ([DomEvent.render], Except.ok (fitPage env w h))
    | Raster.fail => ([DomEvent.render], Except.error ())
  let page :=
    match tryBlock.2 with
    | Except.ok p => p
    | Except.error _ => Page.textPage "Failed to render Office document" 50 (env.pageH / 2) 24
  ([page], setup ++ tryBlock.1 ++ [DomEvent.removeFromBody])

/-- The media type of a Word document in the dispatch chain. -/
def wordMime : String :=
  "application/vnd.openxmlformats-officedocument.wordprocessingml.document"

/-- The media type of an Excel spreadsheet in the dispatch chain. -/
def excelMime : String :=
  "application/vnd.openxmlformats-officedocument.spreadsheetml.sheet"

/-- The branch taken when the declared type starts with `image/`: a page is added first,
then for `image/jpeg`/`image/png` the bytes are embedded (an exception
from the embed call propagates: there is no try/catch here) and drawn
scaled to fit and centered; any other `image/*` type draws an
`Unsupported image` notice on the already-added page and continues. -/
def imageBranch (env : Env) (f : InputFile) : Except String (List Page) :=
  if f.type = "image/jpeg" ∨ f.type = "image/png" then
    match f.decode with
    | ImgDecode.ok w h => Except.ok [fitPage env w h]
    | ImgDecode.fail => Except.error ("embed failed: " ++ f.name)
  else
    Except.ok [placeholderPage env ("Unsupported image: " ++ f.name)]

/-- The `application/pdf` branch: `try` loads the donor document and
copies every page of `getPageIndices()` (indices `0..n-1`, in source
order) into the output; `catch` adds one `Could not load PDF` page. -/
def pdfBranch (env : Env) (f : InputFile) : Except String (List Page) :=
  match f.pdfParse with
  | PdfParse.ok n => Except.ok ((List.range n).map (fun i => Page.copiedPage f.name i))
  | PdfParse.fail => Except.ok [placeholderPage env ("Could not load PDF: " ++ f.name)]

/-- The Word branch: `try` converts the bytes to HTML via mammoth and
calls `embedHtmlAsImage`; `catch` adds one `Could not load Word file`
page.  (`embedHtmlAsImage` handles its own rendering failure and does
not throw.) -/
def wordBranch (env : Env) (f : InputFile) : Except String (List Page) :=
  match f.wordConvert with
  | ConvertHtml.ok html => Except.ok (embedHtmlAsImage env html).1
  | ConvertHtml.fail => Except.ok [placeholderPage env ("Could not load Word file: " ++ f.name)]

/-- The Excel branch: `try` reads the workbook, converts the first
sheet to an HTML table and calls `embedHtmlAsImage`; `catch` adds one
`Could not load Excel file` page. -/
def excelBranch (env : Env) (f : InputFile) : Except String (List Page) :=
  match f.xlsxConvert with
  | ConvertHtml.ok html => Except.ok (embedHtmlAsImage env html).1
  | ConvertHtml.fail => Except.ok [placeholderPage env ("Could not load Excel file: " ++ f.name)]

/-- The body of the per-file loop of `mergeFilesToPdf`: dispatch on the
declared media type, falling back to the lowercased filename extension
for the Office branches, with a final `Unsupported file` placeholder.
Returns the pages this file contributes, or the exception that aborts
the merge. -/
def processFile (env : Env) (f : InputFile) : Except String (List Page) :=
  if strStartsWith f.type "image/" then
    imageBranch env f
  else if f.type = "application/pdf" then
    pdfBranch env f
  else if f.type = wordMime ∨ strEndsWith (strToLower f.name) ".docx" then
    wordBranch env f
  else if f.type = excelMime ∨ strEndsWith (strToLower f.name) ".xlsx" then
    excelBranch env f
  else
    Except.ok [placeholderPage env ("Unsupported file: " ++ f.name)]

/-- Model of `mergeFilesToPdf files onProgress`: processes the files strictly in
input order; for each file it first invokes the progress callback with
the file's name, then runs the dispatch.  Returns the final page list
(or the first uncaught exception) together with the list of names the
progress callback was invoked with, in order. -/
def mergeFilesToPdf (env : Env) : List InputFile → Except String (List Page) × List String
  | [] => (Except.ok [], [])
  | f :: rest =>
    match processFile env f with
    | Except.error e => (Except.error e, [f.name])
    | Except.ok ps =>
      let r := mergeFilesToPdf env rest
      (r.1.map (fun doc => ps ++ doc), f.name :: r.2)

/-- Pages contributed by a file in a run where its dispatch succeeded
(the projection of `processFile` used to state order/count facts). -/
def okPages (env : Env) (f : InputFile) : List Page :=
  match processFile env f with
  | Except.ok ps => ps
  | Except.error _ => []

/-- The page count a file is expected to contribute: the donor page
count for a successfully parsed `application/pdf` file, `1` otherwise. -/
def expectedPageCount (f : InputFile) : ℕ :=
  if f.type = "application/pdf" then
    match f.pdfParse with
    | PdfParse.ok n => n
    | PdfParse.fail => 1
  else 1

/-! Concrete fixtures used for witnesses and counterexamples.  The page
size `612 × 792` is pdf-lib's default `addPage()` size. -/

/-- Environment whose rasterization oracle fails on every HTML string. -/
def env0 : Env := ⟨612, 792, fun _ => Raster.fail⟩

/-- Environment whose rasterization oracle yields a 1700×2200 bitmap. -/
def envOk : Env := ⟨612, 792, fun _ => Raster.ok 1700 2200⟩

/-- A file declared `image/jpeg` whose bytes fail to decode. -/
def badJpeg : InputFile := ⟨"bad.jpg", "image/jpeg", ImgDecode.fail, PdfParse.fail, ConvertHtml.fail, ConvertHtml.fail⟩

/-- A 500×500 PNG that decodes successfully. -/
def goodPng : InputFile := ⟨"good.png", "image/png", ImgDecode.ok 500 500, PdfParse.fail, ConvertHtml.fail, ConvertHtml.fail⟩

/-- A file declared `application/pdf` whose bytes fail to parse. -/
def badPdf : InputFile := ⟨"bad.pdf", "application/pdf", ImgDecode.fail, PdfParse.fail, ConvertHtml.fail, ConvertHtml.fail⟩

/-- A 2-page PDF that parses successfully. -/
def goodPdf : InputFile := ⟨"b.pdf", "application/pdf", ImgDecode.fail, PdfParse.ok 2, ConvertHtml.fail, ConvertHtml.fail⟩

/-- A file with an unsupported image type. -/
def gifFile : InputFile := ⟨"anim.gif", "image/gif", ImgDecode.fail, PdfParse.fail, ConvertHtml.fail, ConvertHtml.fail⟩

/-- A file declared `image/gif` whose NAME ends in `.docx`. -/
def gifNamedDocx : InputFile := ⟨"x.docx", "image/gif", ImgDecode.fail, PdfParse.fail, ConvertHtml.ok "<p>w</p>", ConvertHtml.fail⟩

/-- A Word file with an upper-case `.DOCX` name and a declared type
matching no media-type test. -/
def upperDocx : InputFile := ⟨"REPORT.DOCX", "application/octet-stream", ImgDecode.fail, PdfParse.fail, ConvertHtml.ok "<p>w</p>", ConvertHtml.fail⟩

/-- An Excel file with an upper-case `.XLSX` name and a declared type
matching no media-type test. -/
def upperXlsx : InputFile := ⟨"SHEET.XLSX", "application/octet-stream", ImgDecode.fail, PdfParse.fail, ConvertHtml.fail, ConvertHtml.ok "<table></table>"⟩

/-- A Word file that converts to HTML successfully (its rasterization
outcome is the environment's). -/
def wordFile : InputFile := ⟨"report.docx", wordMime, ImgDecode.fail, PdfParse.fail, ConvertHtml.ok "<p>hello</p>", ConvertHtml.fail⟩

/-- An Excel file that converts to HTML successfully. -/
def excelFile : InputFile := ⟨"sheet.xlsx", excelMime, ImgDecode.fail, PdfParse.fail, ConvertHtml.fail, ConvertHtml.ok "<table></table>"⟩

/-- A Word file whose mammoth conversion itself throws. -/
def badWord : InputFile := ⟨"bad.docx", wordMime, ImgDecode.fail, PdfParse.fail, ConvertHtml.fail, ConvertHtml.fail⟩

/-- An Excel file whose XLSX read itself throws. -/
def badExcel : InputFile := ⟨"bad.xlsx", excelMime, ImgDecode.fail, PdfParse.fail, ConvertHtml.fail, ConvertHtml.fail⟩

/-- A file matching no branch at all. -/
def unknownFile : InputFile := ⟨"notes.txt", "text/plain", ImgDecode.fail, PdfParse.fail, ConvertHtml.fail, ConvertHtml.fail⟩

/-! ## Structural lemmas -/

lemma embedHtmlAsImage_fst (env : Env) (html : String) :
    (embedHtmlAsImage env html).1 =
      [match env.raster html with
       | Raster.ok w h => fitPage env w h
       | Raster.fail => Page.textPage "Failed to render Office document" 50 (env.pageH / 2) 24] := by
  unfold embedHtmlAsImage
  cases env.raster html <;> rfl

lemma embedHtmlAsImage_length (env : Env) (html : String) :
    (embedHtmlAsImage env html).1.length = 1 := by
  rw [embedHtmlAsImage_fst]
  rfl

lemma mergeFilesToPdf_cons (env : Env) (f : InputFile) (rest : List InputFile) :
    mergeFilesToPdf env (f :: rest) =
      match processFile env f with
      | Except.error e => (Except.error e, [f.name])
      | Except.ok ps =>
        ((mergeFilesToPdf env rest).1.map (fun doc => ps ++ doc),
         f.name :: (mergeFilesToPdf env rest).2) := rfl

lemma merge_cons_ok (env : Env) (f : InputFile) (rest : List InputFile) (ps : List Page)
    (hp : processFile env f = Except.ok ps) :
    mergeFilesToPdf env (f :: rest) =
      ((mergeFilesToPdf env rest).1.map (fun doc => ps ++ doc),
       f.name :: (mergeFilesToPdf env rest).2) := by
  rw [mergeFilesToPdf_cons, hp]

lemma okPages_eq (env : Env) (f : InputFile) (ps : List Page)
    (hp : processFile env f = Except.ok ps) : okPages env f = ps := by
  simp [okPages, hp]

/-- In a run that returns a document: the document is the concatenation,
in input order, of the per-file contributions; the progress log is the
full name list; and every file's dispatch succeeded. -/
lemma merge_ok_spec (env : Env) :
    ∀ (files : List InputFile) (doc : List Page),
      (mergeFilesToPdf env files).1 = Except.ok doc →
      doc = (files.map (okPages env)).flatten ∧
      (mergeFilesToPdf env files).2 = files.map (fun f => f.name) ∧
      ∀ f ∈ files, processFile env f = Except.ok (okPages env f) := by
  intro files
  induction files with
  | nil =>
    intro doc h
    simp only [mergeFilesToPdf, Except.ok.injEq] at h
    subst h
    simp [mergeFilesToPdf]
  | cons f rest ih =>
    intro doc h
    cases hp : processFile env f with
    | error e =>
      rw [mergeFilesToPdf_cons, hp] at h
      simp at h
    | ok ps =>
      rw [merge_cons_ok env f rest ps hp] at h
      cases hr : (mergeFilesToPdf env rest).1 with
      | error e => rw [hr] at h; simp [Except.map] at h
      | ok doc' =>
        rw [hr] at h
        simp only [Except.map, Except.ok.injEq] at h
        obtain ⟨h1, h2, h3⟩ := ih doc' hr
        subst h
        refine ⟨?_, ?_, ?_⟩
        · rw [List.map_cons, List.flatten_cons, okPages_eq env f ps hp, h1]
        · rw [merge_cons_ok env f rest ps hp]
          simpa using h2
        · intro g hg
          rcases List.mem_cons.mp hg with hgf | hgr
          · subst hgf; rw [okPages_eq env g ps hp]; exact hp
          · exact h3 g hgr

lemma processFile_image (env : Env) (f : InputFile)
    (h : strStartsWith f.type "image/" = true) :
    processFile env f = imageBranch env f := by
  simp [processFile, h]

lemma strStartsWith_image_ne_pdf {s : String}
    (h : strStartsWith s "image/" = true) : s ≠ "application/pdf" := by
  intro he
  rw [he] at h
  exact absurd h (by decide)

lemma processFile_pdf (env : Env) (f : InputFile)
    (h : f.type = "application/pdf") :
    processFile env f = pdfBranch env f := by
  have h1 : strStartsWith "application/pdf" "image/" = false := by decide
  simp [processFile, h, h1]

lemma processFile_word (env : Env) (f : InputFile)
    (h1 : strStartsWith f.type "image/" = false)
    (h2 : f.type ≠ "application/pdf")
    (h3 : f.type = wordMime ∨ strEndsWith (strToLower f.name) ".docx" = true) :
    processFile env f = wordBranch env f := by
  simp only [processFile, h1, Bool.false_eq_true, if_false, if_neg h2]
  rw [if_pos h3]

lemma processFile_excel (env : Env) (f : InputFile)
    (h1 : strStartsWith f.type "image/" = false)
    (h2 : f.type ≠ "application/pdf")
    (h3 : ¬(f.type = wordMime ∨ strEndsWith (strToLower f.name) ".docx" = true))
    (h4 : f.type = excelMime ∨ strEndsWith (strToLower f.name) ".xlsx" = true) :
    processFile env f = excelBranch env f := by
  simp only [processFile, h1, Bool.false_eq_true, if_false, if_neg h2]
  rw [if_neg h3, if_pos h4]

lemma processFile_unknown (env : Env) (f : InputFile)
    (h1 : strStartsWith f.type "image/" = false)
    (h2 : f.type ≠ "application/pdf")
    (h3 : ¬(f.type = wordMime ∨ strEndsWith (strToLower f.name) ".docx" = true))
    (h4 : ¬(f.type = excelMime ∨ strEndsWith (strToLower f.name) ".xlsx" = true)) :
    processFile env f = Except.ok [placeholderPage env ("Unsupported file: " ++ f.name)] := by
  simp only [processFile, h1, Bool.false_eq_true, if_false, if_neg h2]
  rw [if_neg h3, if_neg h4]

/-- Every successful dispatch contributes the page count the spec
predicts: the donor page count for a parsed PDF, `1` otherwise. -/
lemma processFile_ok_length (env : Env) (f : InputFile) (ps : List Page)
    (h : processFile env f = Except.ok ps) : ps.length = expectedPageCount f := by
  by_cases h1 : strStartsWith f.type "image/" = true
  · rw [processFile_image env f h1] at h
    have hne := strStartsWith_image_ne_pdf h1
    rw [expectedPageCount, if_neg hne]
    rw [imageBranch] at h
    by_cases hj : f.type = "image/jpeg" ∨ f.type = "image/png"
    · rw [if_pos hj] at h
      cases hd : f.decode with
      | ok w hh => rw [hd] at h; cases h; rfl
      | fail => rw [hd] at h; cases h
    · rw [if_neg hj] at h; cases h; rfl
  · rw [Bool.not_eq_true] at h1
    by_cases h2 : f.type = "application/pdf"
    · rw [processFile_pdf env f h2] at h
      rw [expectedPageCount, if_pos h2]
      rw [pdfBranch] at h
      cases hd : f.pdfParse with
      | ok n => rw [hd] at h; cases h; simp
      | fail => rw [hd] at h; cases h; rfl
    · rw [expectedPageCount, if_neg h2]
      by_cases h3 : f.type = wordMime ∨ strEndsWith (strToLower f.name) ".docx" = true
      · rw [processFile_word env f h1 h2 h3] at h
        rw [wordBranch] at h
        cases hd : f.wordConvert with
        | ok html => rw [hd] at h; cases h; exact embedHtmlAsImage_length env html
        | fail => rw [hd] at h; cases h; rfl
      · by_cases h4 : f.type = excelMime ∨ strEndsWith (strToLower f.name) ".xlsx" = true
        · rw [processFile_excel env f h1 h2 h3 h4] at h
          rw [excelBranch] at h
          cases hd : f.xlsxConvert with
          | ok html => rw [hd] at h; cases h; exact embedHtmlAsImage_length env html
          | fail => rw [hd] at h; cases h; rfl
        · rw [processFile_unknown env f h1 h2 h3 h4] at h
          cases h; rfl

/-- A parsed `application/pdf` file contributes exactly its donor's
pages, as `copiedPage` entries indexed `0..n-1` in source order. -/
lemma processFile_ok_pdfPages (env : Env) (f : InputFile) (ps : List Page) (n : ℕ)
    (h : processFile env f = Except.ok ps)
    (ht : f.type = "application/pdf") (hn : f.pdfParse = PdfParse.ok n) :
    ps = (List.range n).map (Page.copiedPage f.name) := by
  rw [processFile_pdf env f ht, pdfBranch, hn] at h
  cases h
  rfl

/-- Every image page appearing in a successful dispatch is the shared
scale-to-fit-and-center placement of its own intrinsic dimensions. -/
lemma processFile_ok_imagePage (env : Env) (f : InputFile) (ps : List Page)
    (h : processFile env f = Except.ok ps)
    (iw ih x y w hh : ℚ) (hmem : Page.imagePage iw ih x y w hh ∈ ps) :
    Page.imagePage iw ih x y w hh = fitPage env iw ih := by
  have fitCase : ∀ w0 h0 : ℚ, Page.imagePage iw ih x y w hh = fitPage env w0 h0 →
      Page.imagePage iw ih x y w hh = fitPage env iw ih := by
    intro w0 h0 he
    rw [fitPage] at he
    obtain ⟨e1, e2, -⟩ := Page.imagePage.injEq .. ▸ he
    rw [he, e1, e2]
    rfl
  by_cases h1 : strStartsWith f.type "image/" = true
  · rw [processFile_image env f h1, imageBranch] at h
    by_cases hj : f.type = "image/jpeg" ∨ f.type = "image/png"
    · rw [if_pos hj] at h
      cases hd : f.decode with
      | ok w0 h0 =>
        rw [hd] at h
        cases h
        rw [List.mem_singleton] at hmem
        exact fitCase w0 h0 hmem
      | fail => rw [hd] at h; cases h
    · rw [if_neg hj] at h
      cases h
      rw [List.mem_singleton] at hmem
      exact absurd hmem (by simp [placeholderPage])
  · rw [Bool.not_eq_true] at h1
    have embedCase : ∀ html, ps = (embedHtmlAsImage env html).1 →
        Page.imagePage iw ih x y w hh = fitPage env iw ih := by
      intro html hps
      rw [embedHtmlAsImage_fst] at hps
      subst hps
      rw [List.mem_singleton] at hmem
      cases hr : env.raster html with
      | ok w0 h0 => rw [hr] at hmem; exact fitCase w0 h0 hmem
      | fail => rw [hr] at hmem; exact absurd hmem (by simp)
    by_cases h2 : f.type = "application/pdf"
    · rw [processFile_pdf env f h2, pdfBranch] at h
      cases hd : f.pdfParse with
      | ok n =>
        rw [hd] at h
        cases h
        exact absurd hmem (by simp)
      | fail =>
        rw [hd] at h
        cases h
        rw [List.mem_singleton] at hmem
        exact absurd hmem (by simp [placeholderPage])
    · by_cases h3 : f.type = wordMime ∨ strEndsWith (strToLower f.name) ".docx" = true
      · rw [processFile_word env f h1 h2 h3, wordBranch] at h
        cases hd : f.wordConvert with
        | ok html => rw [hd] at h; cases h; exact embedCase html rfl
        | fail =>
          rw [hd] at h
          cases h
          rw [List.mem_singleton] at hmem
          exact absurd hmem (by simp [placeholderPage])
      · by_cases h4 : f.type = excelMime ∨ strEndsWith (strToLower f.name) ".xlsx" = true
        · rw [processFile_excel env f h1 h2 h3 h4, excelBranch] at h
          cases hd : f.xlsxConvert with
          | ok html => rw [hd] at h; cases h; exact embedCase html rfl
          | fail =>
            rw [hd] at h
            cases h
            rw [List.mem_singleton] at hmem
            exact absurd hmem (by simp [placeholderPage])
        · rw [processFile_unknown env f h1 h2 h3 h4] at h
          cases h
          rw [List.mem_singleton] at hmem
          exact absurd hmem (by simp [placeholderPage])

/-- A notice built as a fixed prefix followed by the file name contains
the file name. -/
lemma name_in_notice (p s : String) : s.data <:+: (p ++ s).data := by
  rw [String.data_append]
  exact ⟨p.data, [], by simp⟩

/-- When every file before `f` dispatches successfully and `f` aborts,
the progress log is exactly the names up to and including `f`. -/
lemma merge_log_abort (env : Env) :
    ∀ (pre : List InputFile) (f : InputFile) (post : List InputFile) (e : String),
      (∀ g ∈ pre, ∃ qs, processFile env g = Except.ok qs) →
      processFile env f = Except.error e →
      (mergeFilesToPdf env (pre ++ f :: post)).2 = pre.map (fun g => g.name) ++ [f.name] := by
  intro pre
  induction pre with
  | nil =>
    intro f post e _ hf
    rw [List.nil_append, mergeFilesToPdf_cons, hf]
    simp
  | cons g pre ih =>
    intro f post e hpre hf
    obtain ⟨qs, hg⟩ := hpre g (List.mem_cons_self g pre)
    rw [List.cons_append, merge_cons_ok env g (pre ++ f :: post) qs hg]
    simp only [List.map_cons, List.cons_append, List.cons.injEq, true_and]
    exact ih f post e (fun x hx => hpre x (List.mem_cons_of_mem g hx)) hf

/-! ## Claim theorems -/

/-- Claim C1 (code bug): the claim states that a failure while
processing any single file — explicitly including an `image/jpeg` or
`image/png` file whose bytes fail to decode or embed — yields exactly
one placeholder page and processing of the remaining files continues,
`mergeFilesToPdf` throwing only when output-document creation fails.
The image branch of the source has no try/catch, so the decode failure
propagates: on `[bad.jpg (undecodable image/jpeg), b.pdf (2 pages)]`
the merge aborts with the embed exception, the progress log stops at
`bad.jpg`, no placeholder is added, the second file is never processed
and no document is returned. -/
theorem c1_image_decode_failure_aborts_merge :
    mergeFilesToPdf env0 [badJpeg, goodPdf] =
      (Except.error "embed failed: bad.jpg", ["bad.jpg"]) := rfl

/-- Claim C2: in every run of `mergeFilesToPdf` that returns a
document, the page count of the returned document equals the sum over
the input files of the donor page count for a successfully parsed
`application/pdf` file and exactly `1` for every other file. -/
theorem c2_page_count (env : Env) (files : List InputFile) (doc : List Page)
    (h : (mergeFilesToPdf env files).1 = Except.ok doc) :
    doc.length = (files.map expectedPageCount).sum := by
  obtain ⟨hdoc, -, hall⟩ := merge_ok_spec env files doc h
  subst hdoc
  rw [List.length_flatten, List.map_map]
  congr 1
  exact List.map_congr_left
    (fun f hf => processFile_ok_length env f (okPages env f) (hall f hf))

/-- Witness for C2 on `[good.png (500×500), b.pdf (2 pages),
bad.pdf (unparseable), anim.gif (unsupported image)]`: 5 output pages. -/
theorem c2_page_count_witness :
    ([fitPage env0 500 500, Page.copiedPage "b.pdf" 0, Page.copiedPage "b.pdf" 1,
      placeholderPage env0 "Could not load PDF: bad.pdf",
      placeholderPage env0 "Unsupported image: anim.gif"] : List Page).length =
      ([goodPng, goodPdf, badPdf, gifFile].map expectedPageCount).sum :=
  c2_page_count env0 [goodPng, goodPdf, badPdf, gifFile] _ rfl

/-- Claim C3: in every run that returns a document, the document is the
in-input-order concatenation of the files' contributions; a
successfully parsed source PDF contributes exactly its pages as a
contiguous run in source order, and every non-PDF file contributes
exactly one page in its position. -/
theorem c3_page_order (env : Env) (files : List InputFile) (doc : List Page)
    (h : (mergeFilesToPdf env files).1 = Except.ok doc) :
    doc = (files.map (okPages env)).flatten ∧
    ∀ f ∈ files,
      (∀ n, f.type = "application/pdf" → f.pdfParse = PdfParse.ok n →
        okPages env f = (List.range n).map (Page.copiedPage f.name)) ∧
      (f.type ≠ "application/pdf" → (okPages env f).length = 1) := by
  obtain ⟨hdoc, -, hall⟩ := merge_ok_spec env files doc h
  refine ⟨hdoc, fun f hf => ⟨?_, ?_⟩⟩
  · intro n ht hn
    exact processFile_ok_pdfPages env f (okPages env f) n (hall f hf) ht hn
  · intro ht
    rw [processFile_ok_length env f (okPages env f) (hall f hf),
      expectedPageCount, if_neg ht]

/-- Witness for C3 on `[good.png, b.pdf (2 pages)]`: the output is the
image page followed by the two donor pages in source order. -/
theorem c3_page_order_witness :
    ([fitPage env0 500 500, Page.copiedPage "b.pdf" 0, Page.copiedPage "b.pdf" 1] =
      ([goodPng, goodPdf].map (okPages env0)).flatten) ∧
    okPages env0 goodPdf = (List.range 2).map (Page.copiedPage "b.pdf") ∧
    (okPages env0 goodPng).length = 1 := by
  obtain ⟨h1, h2⟩ := c3_page_order env0 [goodPng, goodPdf] _ rfl
  exact ⟨h1, (h2 goodPdf (by simp)).1 2 rfl rfl, (h2 goodPng (by simp)).2 (by decide)⟩

/-- Claim C5: a file declared `application/pdf` whose bytes fail to
parse contributes exactly one placeholder page whose text is
`Could not load PDF: ` followed by the file's name (which therefore
names the file), and the merge of the remaining files is exactly the
merge without that file, with the placeholder prepended. -/
theorem c5_corrupt_pdf (env : Env) (f : InputFile) (post : List InputFile)
    (ht : f.type = "application/pdf") (hp : f.pdfParse = PdfParse.fail) :
    processFile env f = Except.ok [placeholderPage env ("Could not load PDF: " ++ f.name)] ∧
    f.name.data <:+: ("Could not load PDF: " ++ f.name).data ∧
    mergeFilesToPdf env (f :: post) =
      ((mergeFilesToPdf env post).1.map
        (fun doc => placeholderPage env ("Could not load PDF: " ++ f.name) :: doc),
       f.name :: (mergeFilesToPdf env post).2) := by
  have hpf : processFile env f =
      Except.ok [placeholderPage env ("Could not load PDF: " ++ f.name)] := by
    rw [processFile_pdf env f ht, pdfBranch, hp]
  refine ⟨hpf, name_in_notice _ _, ?_⟩
  rw [merge_cons_ok env f post _ hpf]
  rfl

/-- Witness for C5: `[bad.pdf (truncated), good.png]` yields the
placeholder page `Could not load PDF: bad.pdf` followed by the image
page of the second file. -/
theorem c5_corrupt_pdf_witness :
    mergeFilesToPdf env0 [badPdf, goodPng] =
      (Except.ok [placeholderPage env0 "Could not load PDF: bad.pdf", fitPage env0 500 500],
       ["bad.pdf", "good.png"]) :=
  ((c5_corrupt_pdf env0 badPdf [goodPng] rfl rfl).2.2).trans rfl

/-- Claim C7: a file whose declared type starts with `image/` but is
neither `image/jpeg` nor `image/png` contributes exactly one
placeholder page carrying the `Unsupported image` notice naming the
file, and the merge does not throw there: it continues exactly as the
merge of the remaining files. -/
theorem c7_unsupported_image (env : Env) (f : InputFile) (post : List InputFile)
    (h1 : strStartsWith f.type "image/" = true)
    (h2 : f.type ≠ "image/jpeg") (h3 : f.type ≠ "image/png") :
    processFile env f = Except.ok [placeholderPage env ("Unsupported image: " ++ f.name)] ∧
    f.name.data <:+: ("Unsupported image: " ++ f.name).data ∧
    mergeFilesToPdf env (f :: post) =
      ((mergeFilesToPdf env post).1.map
        (fun doc => placeholderPage env ("Unsupported image: " ++ f.name) :: doc),
       f.name :: (mergeFilesToPdf env post).2) := by
  have hpf : processFile env f =
      Except.ok [placeholderPage env ("Unsupported image: " ++ f.name)] := by
    rw [processFile_image env f h1, imageBranch, if_neg (fun hc => hc.elim h2 h3)]
  refine ⟨hpf, name_in_notice _ _, ?_⟩
  rw [merge_cons_ok env f post _ hpf]
  rfl

/-- Witness for C7: `[anim.gif (image/gif), good.png]` yields the
`Unsupported image: anim.gif` placeholder and then the image page. -/
theorem c7_unsupported_image_witness :
    mergeFilesToPdf env0 [gifFile, goodPng] =
      (Except.ok [placeholderPage env0 "Unsupported image: anim.gif", fitPage env0 500 500],
       ["anim.gif", "good.png"]) :=
  ((c7_unsupported_image env0 gifFile [goodPng] (by decide) (by decide) (by decide)).2.2).trans rfl

/-- Claim C8: on every invocation of `embedHtmlAsImage` — whatever the
rasterization outcome, so on the success path and on the failure path —
the container is created and styled off-screen before it is appended
and rendered, and it is removed from the document unconditionally after
rendering, as the final DOM operation. -/
theorem c8_container_lifecycle (env : Env) (html : String) :
    (embedHtmlAsImage env html).2 =
      [DomEvent.createContainer, DomEvent.styleOffscreen, DomEvent.appendToBody,
       DomEvent.render, DomEvent.removeFromBody] ∧
    (embedHtmlAsImage env html).2.indexOf DomEvent.styleOffscreen <
      (embedHtmlAsImage env html).2.indexOf DomEvent.render ∧
    (embedHtmlAsImage env html).2.getLast? = some DomEvent.removeFromBody := by
  have ht : (embedHtmlAsImage env html).2 =
      [DomEvent.createContainer, DomEvent.styleOffscreen, DomEvent.appendToBody,
       DomEvent.render, DomEvent.removeFromBody] := by
    unfold embedHtmlAsImage
    cases env.raster html <;> rfl
  rw [ht]
  exact ⟨rfl, by decide, rfl⟩

/-- Claim C4 counterexample: the claim says every failure placeholder —
including the one emitted when HTML rasterization fails inside
`embedHtmlAsImage` — names the offending file.  On `[report.docx]`
(Word file that converts to HTML but whose rasterization fails) the
emitted placeholder carries the fixed notice
`Failed to render Office document`, which does not contain the file's
name. -/
theorem c4_counterexample :
    (mergeFilesToPdf env0 [wordFile]).1 =
      Except.ok [Page.textPage "Failed to render Office document" 50 (env0.pageH / 2) 24] ∧
    ¬ (wordFile.name.data <:+: "Failed to render Office document".data) :=
  ⟨rfl, by decide⟩

/-- Claim C4 as amended: the placeholders for an unsupported image, a
corrupt PDF, a failed Word conversion, a failed Excel conversion and an
unsupported file kind each carry a notice that names the offending
file; the placeholder emitted when HTML rasterization fails inside
`embedHtmlAsImage` instead carries the fixed notice
`Failed to render Office document` without the file name. -/
theorem c4_failure_notices (env : Env) (f : InputFile) :
    (strStartsWith f.type "image/" = true → f.type ≠ "image/jpeg" → f.type ≠ "image/png" →
      processFile env f = Except.ok [placeholderPage env ("Unsupported image: " ++ f.name)] ∧
      f.name.data <:+: ("Unsupported image: " ++ f.name).data) ∧
    (f.type = "application/pdf" → f.pdfParse = PdfParse.fail →
      processFile env f = Except.ok [placeholderPage env ("Could not load PDF: " ++ f.name)] ∧
      f.name.data <:+: ("Could not load PDF: " ++ f.name).data) ∧
    (f.type = wordMime → f.wordConvert = ConvertHtml.fail →
      processFile env f = Except.ok [placeholderPage env ("Could not load Word file: " ++ f.name)] ∧
      f.name.data <:+: ("Could not load Word file: " ++ f.name).data) ∧
    (f.type = excelMime → strEndsWith (strToLower f.name) ".docx" = false →
      f.xlsxConvert = ConvertHtml.fail →
      processFile env f = Except.ok [placeholderPage env ("Could not load Excel file: " ++ f.name)] ∧
      f.name.data <:+: ("Could not load Excel file: " ++ f.name).data) ∧
    (strStartsWith f.type "image/" = false → f.type ≠ "application/pdf" →
      f.type ≠ wordMime → strEndsWith (strToLower f.name) ".docx" = false →
      f.type ≠ excelMime → strEndsWith (strToLower f.name) ".xlsx" = false →
      processFile env f = Except.ok [placeholderPage env ("Unsupported file: " ++ f.name)] ∧
      f.name.data <:+: ("Unsupported file: " ++ f.name).data) ∧
    (∀ html, f.type = wordMime → f.wordConvert = ConvertHtml.ok html →
      env.raster html = Raster.fail →
      processFile env f =
        Except.ok [Page.textPage "Failed to render Office document" 50 (env.pageH / 2) 24]) := by
  refine ⟨?_, ?_, ?_, ?_, ?_, ?_⟩
  · intro h1 h2 h3
    rw [processFile_image env f h1, imageBranch, if_neg (fun hc => hc.elim h2 h3)]
    exact ⟨rfl, name_in_notice _ _⟩
  · intro ht hp
    rw [processFile_pdf env f ht, pdfBranch, hp]
    exact ⟨rfl, name_in_notice _ _⟩
  · intro hw hc
    have h1 : strStartsWith f.type "image/" = false := by rw [hw]; decide
    have h2 : f.type ≠ "application/pdf" := by rw [hw]; decide
    rw [processFile_word env f h1 h2 (Or.inl hw), wordBranch, hc]
    exact ⟨rfl, name_in_notice _ _⟩
  · intro he hd hc
    have h1 : strStartsWith f.type "image/" = false := by rw [he]; decide
    have h2 : f.type ≠ "application/pdf" := by rw [he]; decide
    have h3 : ¬(f.type = wordMime ∨ strEndsWith (strToLower f.name) ".docx" = true) := by
      intro hor
      rcases hor with hw | hdx
      · rw [he] at hw; exact absurd hw (by decide)
      · rw [hd] at hdx; cases hdx
    rw [processFile_excel env f h1 h2 h3 (Or.inl he), excelBranch, hc]
    exact ⟨rfl, name_in_notice _ _⟩
  · intro h1 h2 hw hd he hx
    have h3 : ¬(f.type = wordMime ∨ strEndsWith (strToLower f.name) ".docx" = true) := by
      intro hor
      rcases hor with h | h
      · exact hw h
      · rw [hd] at h; cases h
    have h4 : ¬(f.type = excelMime ∨ strEndsWith (strToLower f.name) ".xlsx" = true) := by
      intro hor
      rcases hor with h | h
      · exact he h
      · rw [hx] at h; cases h
    rw [processFile_unknown env f h1 h2 h3 h4]
    exact ⟨rfl, name_in_notice _ _⟩
  · intro html hw hc hr
    have h1 : strStartsWith f.type "image/" = false := by rw [hw]; decide
    have h2 : f.type ≠ "application/pdf" := by rw [hw]; decide
    rw [processFile_word env f h1 h2 (Or.inl hw), wordBranch, hc]
    show Except.ok (embedHtmlAsImage env html).1 = _
    rw [embedHtmlAsImage_fst, hr]

/-- Witness for the amended C4, one concrete file per failure kind. -/
theorem c4_failure_notices_witness :
    processFile env0 gifFile =
      Except.ok [placeholderPage env0 ("Unsupported image: " ++ gifFile.name)] ∧
    processFile env0 badPdf =
      Except.ok [placeholderPage env0 ("Could not load PDF: " ++ badPdf.name)] ∧
    processFile env0 badWord =
      Except.ok [placeholderPage env0 ("Could not load Word file: " ++ badWord.name)] ∧
    processFile env0 badExcel =
      Except.ok [placeholderPage env0 ("Could not load Excel file: " ++ badExcel.name)] ∧
    processFile env0 unknownFile =
      Except.ok [placeholderPage env0 ("Unsupported file: " ++ unknownFile.name)] ∧
    processFile env0 wordFile =
      Except.ok [Page.textPage "Failed to render Office document" 50 (env0.pageH / 2) 24] :=
  ⟨((c4_failure_notices env0 gifFile).1 (by decide) (by decide) (by decide)).1,
   ((c4_failure_notices env0 badPdf).2.1 rfl rfl).1,
   ((c4_failure_notices env0 badWord).2.2.1 rfl rfl).1,
   ((c4_failure_notices env0 badExcel).2.2.2.1 rfl (by decide) rfl).1,
   ((c4_failure_notices env0 unknownFile).2.2.2.2.1 (by decide) (by decide) (by decide)
     (by decide) (by decide) (by decide)).1,
   (c4_failure_notices env0 wordFile).2.2.2.2.2 "<p>hello</p>" rfl rfl rfl⟩

/-- Claim C6: every embedded bitmap page of a returned document — a
directly embedded image or a rasterized Office document — is drawn at
size `(iw*s, ih*s)` with `s = min(pageW/iw, pageH/ih)` and placed at
`x = (pageW - iw*s)/2`, `y = (pageH - ih*s)/2`; consequently the drawn
rectangle preserves the aspect ratio and is centered horizontally and
vertically on the page. -/
theorem c6_scale_center (env : Env) (files : List InputFile) (doc : List Page)
    (h : (mergeFilesToPdf env files).1 = Except.ok doc)
    (iw ih x y w hh : ℚ)
    (hmem : Page.imagePage iw ih x y w hh ∈ doc) :
    w = iw * min (env.pageW / iw) (env.pageH / ih) ∧
    hh = ih * min (env.pageW / iw) (env.pageH / ih) ∧
    x = (env.pageW - w) / 2 ∧
    y = (env.pageH - hh) / 2 ∧
    w * ih = hh * iw ∧
    x = env.pageW - (x + w) ∧
    y = env.pageH - (y + hh) := by
  obtain ⟨hdoc, -, hall⟩ := merge_ok_spec env files doc h
  subst hdoc
  obtain ⟨l, hl, hmem2⟩ := List.mem_flatten.mp hmem
  obtain ⟨f, hf, rfl⟩ := List.mem_map.mp hl
  have hfit := processFile_ok_imagePage env f (okPages env f) (hall f hf) iw ih x y w hh hmem2
  simp only [fitPage, fitRect] at hfit
  obtain ⟨-, -, ex, ey, ew, eh⟩ := Page.imagePage.injEq .. ▸ hfit
  subst ex
  subst ey
  subst ew
  subst eh
  refine ⟨rfl, rfl, by ring, by ring, by ring, by ring, by ring⟩

/-- Witness for C6 on `[good.png (500×500)]` with the 612×792 default
page: drawn 612×612 at position `(0, 90)`. -/
theorem c6_scale_center_witness :
    (612 : ℚ) = 500 * min (env0.pageW / 500) (env0.pageH / 500) ∧
    (612 : ℚ) = 500 * min (env0.pageW / 500) (env0.pageH / 500) ∧
    (0 : ℚ) = (env0.pageW - 612) / 2 ∧
    (90 : ℚ) = (env0.pageH - 612) / 2 ∧
    (612 : ℚ) * 500 = 612 * 500 ∧
    (0 : ℚ) = env0.pageW - (0 + 612) ∧
    (90 : ℚ) = env0.pageH - (90 + 612) :=
  c6_scale_center env0 [goodPng] [fitPage env0 500 500] rfl 500 500 0 90 612 612
    (by simp only [List.mem_singleton]; norm_num [fitPage, fitRect, env0, min_def])

/-- Claim C9 counterexample: the claim says the callback is invoked
exactly once per input file for every input list.  On
`[bad.jpg (undecodable image/jpeg), good.png]` the merge aborts at the
first file and the callback is never invoked for `good.png`. -/
theorem c9_counterexample :
    (mergeFilesToPdf env0 [badJpeg, goodPng]).2 = ["bad.jpg"] ∧
    (mergeFilesToPdf env0 [badJpeg, goodPng]).2 ≠ [badJpeg.name, goodPng.name] :=
  ⟨rfl, by decide⟩

/-- Claim C9 as amended: the progress callback is invoked with each
file's name, in input order, before that file's processing; in a run
that returns a document it is invoked exactly once per input file; if
an uncaught failure aborts the merge at some file, it has been invoked
exactly once for each file up to and including the aborting one, and
never for the later files. -/
theorem c9_progress_log (env : Env) (files : List InputFile) :
    (∀ doc, (mergeFilesToPdf env files).1 = Except.ok doc →
      (mergeFilesToPdf env files).2 = files.map (fun f => f.name)) ∧
    (∀ (pre : List InputFile) (f : InputFile) (post : List InputFile) (e : String),
      files = pre ++ f :: post →
      (∀ g ∈ pre, ∃ qs, processFile env g = Except.ok qs) →
      processFile env f = Except.error e →
      (mergeFilesToPdf env files).2 = pre.map (fun g => g.name) ++ [f.name]) := by
  constructor
  · intro doc h
    exact (merge_ok_spec env files doc h).2.1
  · intro pre f post e hfiles hpre hf
    subst hfiles
    exact merge_log_abort env pre f post e hpre hf

/-- Witness for the amended C9: a completing run logs every name in
order; an aborting run logs the names up to the aborting file. -/
theorem c9_progress_log_witness :
    (mergeFilesToPdf env0 [goodPng, goodPdf]).2 = ["good.png", "b.pdf"] ∧
    (mergeFilesToPdf env0 [goodPng, badJpeg]).2 = ["good.png", "bad.jpg"] := by
  constructor
  · exact ((c9_progress_log env0 [goodPng, goodPdf]).1
      [fitPage env0 500 500, Page.copiedPage "b.pdf" 0, Page.copiedPage "b.pdf" 1] rfl).trans rfl
  · exact ((c9_progress_log env0 [goodPng, badJpeg]).2 [goodPng] badJpeg [] "embed failed: bad.jpg"
      rfl (fun g hg => ⟨[fitPage env0 500 500], by rw [List.mem_singleton] at hg; subst hg; rfl⟩)
      rfl).trans rfl

/-- Claim C10: the declared media type is resolved before the filename
fallback — a type starting with `image/` or equal to `application/pdf`
takes its branch regardless of the file name — and the Office fallback
compares the lowercased name, so an upper-case `.DOCX`/`.XLSX` name
with a non-matching declared type still reaches the Word/Excel branch. -/
theorem c10_dispatch_precedence (env : Env) (f : InputFile) :
    (strStartsWith f.type "image/" = true → processFile env f = imageBranch env f) ∧
    (f.type = "application/pdf" → processFile env f = pdfBranch env f) ∧
    (strStartsWith f.type "image/" = false → f.type ≠ "application/pdf" →
      f.type ≠ wordMime → strEndsWith (strToLower f.name) ".docx" = true →
      processFile env f = wordBranch env f) ∧
    (strStartsWith f.type "image/" = false → f.type ≠ "application/pdf" →
      f.type ≠ wordMime → strEndsWith (strToLower f.name) ".docx" = false →
      f.type ≠ excelMime → strEndsWith (strToLower f.name) ".xlsx" = true →
      processFile env f = excelBranch env f) := by
  refine ⟨processFile_image env f, processFile_pdf env f, ?_, ?_⟩
  · intro h1 h2 h3 h4
    exact processFile_word env f h1 h2 (Or.inr h4)
  · intro h1 h2 h3 hd h5 h6
    refine processFile_excel env f h1 h2 ?_ (Or.inr h6)
    intro hor
    rcases hor with hw | hdx
    · exact h3 hw
    · rw [hd] at hdx; cases hdx

/-- Witness for C10: a file named `x.docx` but declared `image/gif` is
routed to the image branch (yielding the unsupported-image
placeholder); `REPORT.DOCX`/`SHEET.XLSX` with declared type
`application/octet-stream` reach the Word/Excel branches. -/
theorem c10_dispatch_precedence_witness :
    processFile env0 gifNamedDocx = imageBranch env0 gifNamedDocx ∧
    processFile env0 gifNamedDocx =
      Except.ok [placeholderPage env0 ("Unsupported image: " ++ gifNamedDocx.name)] ∧
    processFile env0 goodPdf = pdfBranch env0 goodPdf ∧
    processFile env0 upperDocx = wordBranch env0 upperDocx ∧
    processFile env0 upperXlsx = excelBranch env0 upperXlsx :=
  ⟨(c10_dispatch_precedence env0 gifNamedDocx).1 (by decide), rfl,
   (c10_dispatch_precedence env0 goodPdf).2.1 rfl,
   (c10_dispatch_precedence env0 upperDocx).2.2.1 (by decide) (by decide) (by decide) (by decide),
   (c10_dispatch_precedence env0 upperXlsx).2.2.2 (by decide) (by decide) (by decide)
     (by decide) (by decide) (by decide)⟩

end ManeaPdf
